import Mathlib

/-!
Verification of the conversational interaction orchestrator of the Kiwi
insurance-claims portal (frontend/src/pages/ChatbotPage.tsx).

The orchestrator runs on a single-threaded cooperative scheduler (the
JavaScript event loop): code between two suspension points (`await`) runs
atomically.  We embed it as a transition system whose atomic steps are
exactly those synchronous segments:

* `sendMessageStart`  — the synchronous prefix of `sendMessage` (lines
  38-48): trim, gate check (`loadingRef.current`), clear input, append the
  user turn, set the gate, start the collaborator call, suspend at `await`;
* `sendMessageResolve` — the continuation run when the collaborator call
  resolves (lines 49-56 plus the `finally` block): append the assistant
  turn with content and sources, release the gate;
* `sendMessageReject` — the continuation run when the call rejects (the
  `catch` block plus `finally`): append the fixed failure turn through the
  deduplicating `appendMessage`, release the gate;
* the `onTranscription` callback (lines 73-79), which routes a finalized
  voice user utterance into `sendMessage` and a finalized voice assistant
  utterance directly into `appendMessage`.

Machine integers do not occur; all data is strings, lists and booleans.
-/

/-- Speaker role of a transcript turn (`role: 'user' | 'assistant'`). -/
inductive Role where
  | user
  | assistant
deriving DecidableEq, Repr

/-- A citation attached to an assistant turn (`ChatSource`): a display
label and an optional link target. -/
structure ChatSource where
  label : String
  url : Option String
deriving DecidableEq, Repr

/-- One transcript turn (`interface Message` in ChatbotPage.tsx):
role, content, and optional sources. -/
structure Message where
  role : Role
  content : String
  sources : Option (List ChatSource) := none
deriving DecidableEq, Repr

/-- The reply of the text-completion collaborator
(`chatbotApi.sendMessage`): response text and optional sources. -/
structure ChatResponse where
  response : String
  sources : Option (List ChatSource)
deriving DecidableEq, Repr

/-- The orchestrator state: the transcript (`messages`), the dispatch
gate (`loadingRef.current`), the per-instance session token, and a log of
the `(message, sessionId)` arguments of every call made to
`chatbotApi.sendMessage` (so that "no collaborator call is made" is
statable). -/
structure ChatState where
  messages : List Message
  loadingRef : Bool
  sessionId : String
  apiCalls : List (String × String)
deriving DecidableEq, Repr

/-- The canned greeting turn seeding the transcript (initial `useState`). -/
def greeting : Message :=
  { role := .assistant
    content := "Bonjour ! Je suis votre assistant d'assurance Kiwi. Je peux expliquer les termes d'assurance, repondre aux questions sur le processus de sinistre, et vous guider dans votre contrat. Que souhaitez-vous savoir ?" }

/-- The fixed failure content appended when the collaborator call fails. -/
def failureContent : String :=
  "Desole, une erreur est survenue. Veuillez reessayer."

/-- Initial orchestrator state: one greeting turn, gate false, no calls. -/
def initState (sessionId : String) : ChatState :=
  { messages := [greeting]
    loadingRef := false
    sessionId := sessionId
    apiCalls := [] }

/-- The deduplicating append (`appendMessage` in ChatbotPage.tsx): if the
last turn exists and has the same role and the same content, return the
transcript unchanged; otherwise append a turn without sources. -/
def appendMessage (msgs : List Message) (role : Role) (content : String) :
    List Message :=
  match msgs.getLast? with
  | some last =>
      if last.role = role ∧ last.content = content then msgs
      else msgs ++ [{ role := role, content := content }]
  | none => msgs ++ [{ role := role, content := content }]

/-- Executable model of `String.prototype.trim`: drop whitespace
characters from both ends of the string.  Structural recursion over the
character list, so it evaluates inside the kernel. -/
def jsTrim (s : String) : String :=
  String.mk
    (((s.data.dropWhile Char.isWhitespace).reverse.dropWhile
        Char.isWhitespace).reverse)

/-- Synchronous prefix of `sendMessage` (lines 38-48): trim, reject on
blank input or a set gate, else append the user turn, set the gate and
issue the collaborator call with `(trimmed, sessionId)`. -/
def sendMessageStart (s : ChatState) (messageText : String) : ChatState :=
  if jsTrim messageText = "" ∨ s.loadingRef then s
  else
    { s with
      messages := appendMessage s.messages .user (jsTrim messageText)
      loadingRef := true
      apiCalls := s.apiCalls ++ [(jsTrim messageText, s.sessionId)] }

/-- Continuation of `sendMessage` on collaborator success (lines 49-56 and
`finally`): append the assistant turn with the returned content and
sources (a plain append, no dedup), release the gate. -/
def sendMessageResolve (s : ChatState) (resp : ChatResponse) : ChatState :=
  { s with
    messages := s.messages ++
      [{ role := .assistant, content := resp.response, sources := resp.sources }]
    loadingRef := false }

/-- Continuation of `sendMessage` on collaborator failure (`catch` and
`finally`): append the fixed failure turn through the deduplicating
append, release the gate. -/
def sendMessageReject (s : ChatState) : ChatState :=
  { s with
    messages := appendMessage s.messages .assistant failureContent
    loadingRef := false }

/-- Atomic events of the orchestrator: a typed send, a finalized voice
user utterance (routed by `onTranscription` into `sendMessage`), a
finalized voice assistant utterance (routed into `appendMessage`), and
the resolution or rejection of the in-flight collaborator call. -/
inductive Event where
  | typedSend (text : String)
  | voiceUser (text : String)
  | voiceAssistant (text : String)
  | dispatchResolve (resp : ChatResponse)
  | dispatchFail
deriving DecidableEq, Repr

/-- One atomic step of the orchestrator.  A resolve/fail continuation
exists only while a dispatch is in flight, so those events are no-ops
when the gate is clear. -/
def step (s : ChatState) : Event → ChatState
  | .typedSend t => sendMessageStart s t
  | .voiceUser t => sendMessageStart s t
  | .voiceAssistant t =>
      { s with messages := appendMessage s.messages .assistant t }
  | .dispatchResolve resp =>
      if s.loadingRef then sendMessageResolve s resp else s
  | .dispatchFail =>
      if s.loadingRef then sendMessageReject s else s

/-- The state reached after a sequence of events from the initial state. -/
def run (sessionId : String) (events : List Event) : ChatState :=
  events.foldl step (initState sessionId)

/-- Voice Status of the voice session controller:
one of idle, connecting, ready, error. -/
inductive VoiceStatus where
  | idle
  | connecting
  | ready
  | error
deriving DecidableEq, Repr

/-- State owned by the voice session controller: the current Voice Status
and the last error message. -/
structure VoiceState where
  status : VoiceStatus
  errMsg : Option String
deriving DecidableEq, Repr

/-- Events driving the voice session controller: the `start()` and
`stop()` entry points, the collaborator confirming an active channel, and
an asynchronous channel failure carrying a message. -/
inductive VoiceEvent where
  | start
  | stop
  | channelReady
  | channelError (msg : String)
deriving DecidableEq, Repr

/-- Modelled from the spec: the source of the `useVoiceChat` hook (the
voice session controller) is not part of the provided sources, only its
caller in ChatbotPage.tsx is; its state machine is taken from the spec's
"Voice Session Controller" contract.  `start()` is valid only from idle
or error and moves to connecting, a no-op from connecting or ready;
`stop()` is valid from connecting or ready, tears down the channel and
moves to idle, a no-op from idle or error; the collaborator confirming an
active channel moves connecting to ready; an asynchronous channel failure
while connecting or ready forces error with the supplied message. -/
def voiceStep (s : VoiceState) : VoiceEvent → VoiceState
  | .start =>
      match s.status with
      | .idle => { s with status := .connecting }
      | .error => { s with status := .connecting }
      | _ => s
  | .stop =>
      match s.status with
      | .connecting => { s with status := .idle }
      | .ready => { s with status := .idle }
      | _ => s
  | .channelReady =>
      match s.status with
      | .connecting => { s with status := .ready }
      | _ => s
  | .channelError m =>
      match s.status with
      | .connecting => { status := .error, errMsg := some m }
      | .ready => { status := .error, errMsg := some m }
      | _ => s

/-- Initial voice state: status idle, no error message. -/
def initVoice : VoiceState := { status := .idle, errMsg := none }

/-- The six-edge transition set named by the spec's testable property:
idle→connecting, connecting→ready, connecting→error, ready→idle,
ready→error, error→connecting. -/
def specEdge : VoiceStatus → VoiceStatus → Bool
  | .idle, .connecting => true
  | .connecting, .ready => true
  | .connecting, .error => true
  | .ready, .idle => true
  | .ready, .error => true
  | .error, .connecting => true
  | _, _ => false

/-- The transition set actually realised by the controller: the spec's
six edges together with connecting→idle, the transition `stop()` takes
when called while the channel is still connecting. -/
def controllerEdge : VoiceStatus → VoiceStatus → Bool
  | .connecting, .idle => true
  | a, b => specEdge a b

/-! ### Basic lemmas about the deduplicating append -/

/-- `appendMessage` either leaves the transcript unchanged or appends
exactly one sourceless turn with the given role and content. -/
theorem appendMessage_eq_or_concat (msgs : List Message) (role : Role)
    (content : String) :
    appendMessage msgs role content = msgs ∨
    appendMessage msgs role content =
      msgs ++ [{ role := role, content := content }] := by
  unfold appendMessage
  cases h : msgs.getLast? with
  | none => exact Or.inr rfl
  | some last =>
    by_cases hc : last.role = role ∧ last.content = content
    · simp [hc]
    · simp [hc]

/-- After appending an assistant turn through `appendMessage`, the last
turn of the transcript has the assistant role. -/
theorem appendMessage_assistant_last (msgs : List Message)
    (content : String) :
    ((appendMessage msgs .assistant content).getLast?).map Message.role =
      some .assistant := by
  unfold appendMessage
  cases h : msgs.getLast? with
  | none => simp
  | some last =>
    by_cases hc : last.role = .assistant ∧ last.content = content
    · simp [hc, h, hc.1]
    · simp [hc]

/-- If the last turn's role differs from the appended role, the dedup
check cannot fire and `appendMessage` appends. -/
theorem appendMessage_of_role_ne (msgs : List Message) (role : Role)
    (content : String)
    (h : (msgs.getLast?).map Message.role ≠ some role) :
    appendMessage msgs role content =
      msgs ++ [{ role := role, content := content }] := by
  unfold appendMessage
  cases hl : msgs.getLast? with
  | none => rfl
  | some last =>
    have hr : ¬ (last.role = role ∧ last.content = content) := by
      intro hc
      exact h (by simp [hl, hc.1])
    simp [hr]

/-! ### Reachability invariant

Whenever the dispatch gate is clear, the transcript is nonempty and ends
in an assistant turn: the initial transcript is the greeting, an accepted
dispatch holds the gate until its continuation has appended an assistant
turn, and voice assistant utterances append assistant turns. -/

/-- The inductive invariant: gate clear implies the last turn is an
assistant turn. -/
def GateInv (s : ChatState) : Prop :=
  s.loadingRef = false →
    (s.messages.getLast?).map Message.role = some .assistant

theorem gateInv_init (sessionId : String) : GateInv (initState sessionId) := by
  intro _
  simp [initState, greeting]

theorem gateInv_sendMessageStart (s : ChatState) (t : String)
    (hs : GateInv s) : GateInv (sendMessageStart s t) := by
  unfold GateInv sendMessageStart
  by_cases hc : jsTrim t = "" ∨ s.loadingRef = true
  · rw [if_pos hc]
    exact hs
  · rw [if_neg hc]
    intro h
    simp at h

theorem gateInv_step (s : ChatState) (e : Event) (hs : GateInv s) :
    GateInv (step s e) := by
  cases e with
  | typedSend t => exact gateInv_sendMessageStart s t hs
  | voiceUser t => exact gateInv_sendMessageStart s t hs
  | voiceAssistant t =>
    intro _
    simpa [step] using appendMessage_assistant_last s.messages t
  | dispatchResolve resp =>
    intro h
    by_cases hg : s.loadingRef
    · simp [step, hg, sendMessageResolve]
    · simp only [step, if_neg hg]
      exact hs (by simpa using hg)
  | dispatchFail =>
    intro h
    by_cases hg : s.loadingRef
    · simp only [step, if_pos hg, sendMessageReject]
      simpa using appendMessage_assistant_last s.messages failureContent
    · simp only [step, if_neg hg]
      exact hs (by simpa using hg)

/-- Every reachable state satisfies the invariant: whenever the gate is
clear, the transcript ends in an assistant turn. -/
theorem gateInv_run (sessionId : String) (events : List Event) :
    GateInv (run sessionId events) := by
  unfold run
  induction events using List.reverseRecOn with
  | nil => exact gateInv_init sessionId
  | append_singleton evts e ih =>
    rw [List.foldl_append]
    exact gateInv_step _ e ih

theorem getLast?_append_singleton {α : Type} (l : List α) (a : α) :
    (l ++ [a]).getLast? = some a := by
  rw [List.getLast?_append_cons]
  rfl

/-- An accepted call (non-blank input, clear gate) to the synchronous
prefix of `sendMessage` appends the trimmed user turn, sets the gate, and
logs the collaborator call with the trimmed text and session id. -/
theorem sendMessageStart_accepted (s : ChatState) (t : String)
    (hgate : s.loadingRef = false) (ht : jsTrim t ≠ "")
    (hlast : (s.messages.getLast?).map Message.role ≠ some .user) :
    sendMessageStart s t =
      { s with
        messages := s.messages ++ [{ role := .user, content := jsTrim t }]
        loadingRef := true
        apiCalls := s.apiCalls ++ [(jsTrim t, s.sessionId)] } := by
  unfold sendMessageStart
  rw [if_neg (by simp [ht, hgate])]
  rw [appendMessage_of_role_ne s.messages .user (jsTrim t) hlast]

/-- A send made while the gate is set is rejected as the whole-state
identity: no turn, no collaborator call, no gate change, no input change. -/
theorem sendMessageStart_gate_busy (s : ChatState) (t : String)
    (hgate : s.loadingRef = true) : sendMessageStart s t = s := by
  unfold sendMessageStart
  rw [if_pos (Or.inr hgate)]

/-- A blank-after-trim send is rejected as the whole-state identity. -/
theorem sendMessageStart_blank (s : ChatState) (t : String)
    (ht : jsTrim t = "") : sendMessageStart s t = s := by
  unfold sendMessageStart
  rw [if_pos (Or.inl ht)]

/-- The reachability invariant, phrased for the dedup check: in a
reachable state with a clear gate, the last turn is not a user turn. -/
theorem run_gate_clear_last_not_user (sessionId : String)
    (events : List Event) (hgate : (run sessionId events).loadingRef = false) :
    ((run sessionId events).messages.getLast?).map Message.role ≠
      some .user := by
  rw [gateInv_run sessionId events hgate]
  simp

/-! ## Claim theorems -/

/-- C1: at most one text dispatch is in flight at any time.  The dispatch
gate starts false; while it is set, every typed or voice-triggered send is
the whole-state identity (the loser of the race is dropped, not queued);
an accepted dispatch sets the gate within the same atomic step as the
check (the synchronous prefix of `sendMessage` has no suspension point
between reading `loadingRef.current` and setting it true), so a second
send issued in any interleaving before the continuation runs is a no-op;
and the gate is false after every exit path: the success continuation,
the failure continuation, and an early rejection. -/
theorem dispatch_gate_mutual_exclusion :
    (∀ sessionId, (initState sessionId).loadingRef = false)
  ∧ (∀ s t, s.loadingRef = true →
        step s (.typedSend t) = s ∧ step s (.voiceUser t) = s)
  ∧ (∀ s t, s.loadingRef = false → jsTrim t ≠ "" →
        (step s (.typedSend t)).loadingRef = true
      ∧ ∀ u, step (step s (.typedSend t)) (.typedSend u) = step s (.typedSend t)
           ∧ step (step s (.typedSend t)) (.voiceUser u) = step s (.typedSend t))
  ∧ (∀ s resp, (step s (.dispatchResolve resp)).loadingRef = false)
  ∧ (∀ s, (step s .dispatchFail).loadingRef = false)
  ∧ (∀ s t, jsTrim t = "" → step s (.typedSend t) = s) := by
  refine ⟨fun _ => rfl, ?_, ?_, ?_, ?_, ?_⟩
  · intro s t h
    exact ⟨sendMessageStart_gate_busy s t h, sendMessageStart_gate_busy s t h⟩
  · intro s t hgate ht
    have hset : (step s (.typedSend t)).loadingRef = true := by
      show (sendMessageStart s t).loadingRef = true
      unfold sendMessageStart
      rw [if_neg (by simp [ht, hgate])]
    refine ⟨hset, fun u => ?_⟩
    exact ⟨sendMessageStart_gate_busy _ u hset,
           sendMessageStart_gate_busy _ u hset⟩
  · intro s resp
    by_cases hg : s.loadingRef
    · simp [step, hg, sendMessageResolve]
    · simp only [step, if_neg hg]
      simpa using hg
  · intro s
    by_cases hg : s.loadingRef
    · simp [step, hg, sendMessageReject]
    · simp only [step, if_neg hg]
      simpa using hg
  · intro s t ht
    exact sendMessageStart_blank s t ht

/-- Witness for C1: from a state holding the gate, a typed send is the
identity, and a resolve clears the gate. -/
theorem dispatch_gate_mutual_exclusion_witness :
    (initState "session-1").loadingRef = false
  ∧ step { messages := [greeting], loadingRef := true,
           sessionId := "session-1", apiCalls := [] } (.typedSend "hi") =
      { messages := [greeting], loadingRef := true,
        sessionId := "session-1", apiCalls := [] }
  ∧ (step (initState "session-1") (.typedSend "")) = initState "session-1" :=
  ⟨dispatch_gate_mutual_exclusion.1 "session-1",
   (dispatch_gate_mutual_exclusion.2.1 _ "hi" rfl).1,
   dispatch_gate_mutual_exclusion.2.2.2.2.2 _ "" (by decide)⟩

/-- C2: an accepted dispatch (non-blank input, clear gate, reachable
state) whose collaborator call succeeds appends exactly the trimmed user
turn and then one assistant turn carrying the returned content and
sources, logs exactly one collaborator call with `(trimmed, sessionId)`,
and ends with the gate released. -/
theorem accepted_dispatch_success_two_turns (s : ChatState)
    (sessionId : String) (events : List Event)
    (hrun : s = run sessionId events) (t : String) (resp : ChatResponse)
    (hgate : s.loadingRef = false) (ht : jsTrim t ≠ "") :
    (step (step s (.typedSend t)) (.dispatchResolve resp)).messages
      = s.messages ++
          [{ role := .user, content := jsTrim t },
           { role := .assistant, content := resp.response,
             sources := resp.sources }]
  ∧ (step (step s (.typedSend t)) (.dispatchResolve resp)).apiCalls
      = s.apiCalls ++ [(jsTrim t, s.sessionId)]
  ∧ (step (step s (.typedSend t)) (.dispatchResolve resp)).loadingRef
      = false := by
  have hlast : (s.messages.getLast?).map Message.role ≠ some .user := by
    rw [hrun] at hgate ⊢
    exact run_gate_clear_last_not_user sessionId events hgate
  have h1 : step s (.typedSend t) =
      { s with
        messages := s.messages ++ [{ role := .user, content := jsTrim t }]
        loadingRef := true
        apiCalls := s.apiCalls ++ [(jsTrim t, s.sessionId)] } :=
    sendMessageStart_accepted s t hgate ht hlast
  rw [h1]
  simp [step, sendMessageResolve]

/-- Witness for C2: a concrete successful dispatch from the initial
state grows the transcript by the trimmed user turn and the reply turn. -/
theorem accepted_dispatch_success_two_turns_witness :
    (step (step (run "session-1" []) (.typedSend " hello "))
        (.dispatchResolve { response := "hi", sources := none })).messages
      = (run "session-1" []).messages ++
          [{ role := .user, content := jsTrim " hello " },
           { role := .assistant, content := "hi", sources := none }] :=
  (accepted_dispatch_success_two_turns (run "session-1" []) "session-1" []
    rfl " hello " { response := "hi", sources := none } rfl (by decide)).1

/-- C3: an accepted dispatch whose collaborator call fails appends
exactly the trimmed user turn and then one assistant turn carrying the
fixed failure content, and ends with the gate released.  The failure is
absorbed by the `catch` block: the continuation is a total function of
the state, so no exception escapes the dispatch. -/
theorem accepted_dispatch_failure_two_turns (s : ChatState)
    (sessionId : String) (events : List Event)
    (hrun : s = run sessionId events) (t : String)
    (hgate : s.loadingRef = false) (ht : jsTrim t ≠ "") :
    (step (step s (.typedSend t)) .dispatchFail).messages
      = s.messages ++
          [{ role := .user, content := jsTrim t },
           { role := .assistant, content := failureContent }]
  ∧ (step (step s (.typedSend t)) .dispatchFail).loadingRef = false := by
  have hlast : (s.messages.getLast?).map Message.role ≠ some .user := by
    rw [hrun] at hgate ⊢
    exact run_gate_clear_last_not_user sessionId events hgate
  have h1 : step s (.typedSend t) =
      { s with
        messages := s.messages ++ [{ role := .user, content := jsTrim t }]
        loadingRef := true
        apiCalls := s.apiCalls ++ [(jsTrim t, s.sessionId)] } :=
    sendMessageStart_accepted s t hgate ht hlast
  rw [h1]
  have h2 : appendMessage
      (s.messages ++ [{ role := .user, content := jsTrim t }]) .assistant
      failureContent
      = (s.messages ++ [{ role := .user, content := jsTrim t }]) ++
          [{ role := .assistant, content := failureContent }] := by
    apply appendMessage_of_role_ne
    rw [getLast?_append_singleton]
    simp
  simp [step, sendMessageReject, h2]

/-- Witness for C3: a concrete failed dispatch from the initial state
grows the transcript by the user turn and the fixed failure turn. -/
theorem accepted_dispatch_failure_two_turns_witness :
    (step (step (run "session-1" []) (.typedSend "hello"))
        .dispatchFail).messages
      = (run "session-1" []).messages ++
          [{ role := .user, content := jsTrim "hello" },
           { role := .assistant, content := failureContent }] :=
  (accepted_dispatch_failure_two_turns (run "session-1" []) "session-1" []
    rfl "hello" rfl (by decide)).1

/-- C4: a `sendMessage` call — typed or voice-triggered — made while the
dispatch gate is set is rejected silently as the whole-state identity (no
turns, no collaborator call, gate and transcript unchanged); consequently
of a sequence of overlapping sends only the first is dispatched. -/
theorem overlapping_send_rejected :
    (∀ s t, s.loadingRef = true →
        step s (.typedSend t) = s ∧ step s (.voiceUser t) = s)
  ∧ (∀ s t, s.loadingRef = false → jsTrim t ≠ "" →
      ∀ u, step (step s (.typedSend t)) (.typedSend u) = step s (.typedSend t)
         ∧ step (step s (.typedSend t)) (.voiceUser u) = step s (.typedSend t)
         ∧ step (step s (.voiceUser t)) (.typedSend u) = step s (.voiceUser t)
         ∧ step (step s (.voiceUser t)) (.voiceUser u) = step s (.voiceUser t)) := by
  constructor
  · intro s t h
    exact ⟨sendMessageStart_gate_busy s t h, sendMessageStart_gate_busy s t h⟩
  · intro s t hgate ht u
    have hset : (sendMessageStart s t).loadingRef = true := by
      unfold sendMessageStart
      rw [if_neg (by simp [ht, hgate])]
    exact ⟨sendMessageStart_gate_busy _ u hset,
           sendMessageStart_gate_busy _ u hset,
           sendMessageStart_gate_busy _ u hset,
           sendMessageStart_gate_busy _ u hset⟩

/-- Witness for C4: with the gate set, concrete typed and voice sends are
both the identity, and a second overlapping send is dropped. -/
theorem overlapping_send_rejected_witness :
    step { messages := [greeting], loadingRef := true,
           sessionId := "session-1", apiCalls := [] } (.typedSend "hi") =
      { messages := [greeting], loadingRef := true,
        sessionId := "session-1", apiCalls := [] }
  ∧ step (step (initState "session-1") (.typedSend "hi")) (.voiceUser "yo") =
      step (initState "session-1") (.typedSend "hi") :=
  ⟨(overlapping_send_rejected.1 _ "hi" rfl).1,
   (overlapping_send_rejected.2 (initState "session-1") "hi" rfl
      (by decide) "yo").2.1⟩

/-- C5: the deduplicating append is a no-op exactly when the immediately
preceding turn has identical role and identical content; the comparison
covers only that last turn, so appending A, then B, then A again onto an
empty transcript yields three turns. -/
theorem appendMessage_dedup_iff :
    (∀ msgs role content,
        appendMessage msgs role content = msgs ↔
          ∃ last, msgs.getLast? = some last ∧
            last.role = role ∧ last.content = content)
  ∧ (appendMessage (appendMessage (appendMessage [] .user "A") .assistant "B")
        .user "A").length = 3 := by
  constructor
  · intro msgs role content
    constructor
    · intro h
      cases hl : msgs.getLast? with
      | none =>
        simp only [appendMessage, hl] at h
        exact absurd (congrArg List.length h) (by simp)
      | some last =>
        simp only [appendMessage, hl] at h
        by_cases hc : last.role = role ∧ last.content = content
        · exact ⟨last, rfl, hc.1, hc.2⟩
        · rw [if_neg hc] at h
          exact absurd (congrArg List.length h) (by simp)
    · rintro ⟨last, hl, h1, h2⟩
      simp only [appendMessage, hl]
      rw [if_pos ⟨h1, h2⟩]
  · rfl

/-- Witness for C5: re-appending the greeting's own role and content onto
the initial transcript is a no-op. -/
theorem appendMessage_dedup_iff_witness :
    appendMessage [greeting] .assistant greeting.content = [greeting] :=
  (appendMessage_dedup_iff.1 [greeting] .assistant greeting.content).mpr
    ⟨greeting, rfl, rfl, rfl⟩

/-- C6: voice transcription routing is asymmetric.  A finalized voice
user utterance takes exactly the dispatch path of typed input (the same
`sendMessage`, hence the same gate and trim checks); a finalized voice
assistant utterance goes directly through the deduplicating append — the
gate is not consulted, the collaborator is never invoked, and when a turn
results it carries no sources. -/
theorem voice_routing_asymmetric :
    (∀ s t, step s (.voiceUser t) = step s (.typedSend t))
  ∧ (∀ s t, step s (.voiceAssistant t) =
        { s with messages := appendMessage s.messages .assistant t })
  ∧ (∀ s t, (step s (.voiceAssistant t)).apiCalls = s.apiCalls
      ∧ (step s (.voiceAssistant t)).loadingRef = s.loadingRef)
  ∧ (∀ msgs t, appendMessage msgs .assistant t = msgs ∨
        appendMessage msgs .assistant t =
          msgs ++ [{ role := .assistant, content := t, sources := none }]) :=
  ⟨fun _ _ => rfl,
   fun _ _ => rfl,
   fun _ _ => ⟨rfl, rfl⟩,
   fun msgs t => appendMessage_eq_or_concat msgs .assistant t⟩

/-- C7: blank-after-trim input makes `sendMessage` a silent no-op — the
whole state (transcript, gate, collaborator-call log) is unchanged — and
from the seeded initial transcript `sendText("  ")` leaves length 1. -/
theorem blank_input_silent_noop :
    (∀ s t, jsTrim t = "" →
        step s (.typedSend t) = s ∧ step s (.voiceUser t) = s)
  ∧ (∀ sessionId,
        (step (initState sessionId) (.typedSend "  ")).messages.length = 1) := by
  constructor
  · intro s t ht
    exact ⟨sendMessageStart_blank s t ht, sendMessageStart_blank s t ht⟩
  · intro sessionId
    have h : step (initState sessionId) (.typedSend "  ") =
        initState sessionId :=
      sendMessageStart_blank (initState sessionId) "  " (by decide)
    rw [h]
    rfl

/-- Witness for C7: a concrete whitespace-only send from the initial
state is the identity. -/
theorem blank_input_silent_noop_witness :
    step (initState "session-1") (.typedSend " ") = initState "session-1" :=
  (blank_input_silent_noop.1 (initState "session-1") " " (by decide)).1

/-- C8 counterexample: `stop()` is valid while the status is
`connecting` and tears the channel down to `idle`, yet the transition
connecting→idle is not in the claim's six-edge set — the edge list and
the `stop()` contract in the claim contradict each other. -/
theorem voice_stop_while_connecting_cex :
    voiceStep { status := .connecting, errMsg := none } .stop =
      { status := .idle, errMsg := none }
  ∧ specEdge .connecting .idle = false :=
  ⟨rfl, rfl⟩

/-- C8 (amended): the Voice Status starts at idle and transitions only
along {idle→connecting, connecting→ready, connecting→idle,
connecting→error, ready→idle, ready→error, error→connecting}; every other
event is ignored as a no-op — in particular `start()` is a no-op from
connecting or ready, `stop()` is a no-op from idle or error, and from
connecting or ready `stop()` tears down the channel to idle. -/
theorem voice_status_transitions :
    initVoice.status = .idle
  ∧ (∀ s e, voiceStep s e = s ∨
        controllerEdge s.status (voiceStep s e).status = true)
  ∧ (∀ s, (s.status = .connecting ∨ s.status = .ready) →
        voiceStep s .start = s)
  ∧ (∀ s, (s.status = .idle ∨ s.status = .error) → voiceStep s .stop = s)
  ∧ (∀ s, (s.status = .connecting ∨ s.status = .ready) →
        (voiceStep s .stop).status = .idle) := by
  refine ⟨rfl, ?_, ?_, ?_, ?_⟩
  · rintro ⟨st, msg⟩ e
    cases st <;> cases e <;>
      first
        | exact Or.inl rfl
        | exact Or.inr rfl
  · rintro ⟨st, msg⟩ (h | h) <;> (simp only at h; subst h; rfl)
  · rintro ⟨st, msg⟩ (h | h) <;> (simp only at h; subst h; rfl)
  · rintro ⟨st, msg⟩ (h | h) <;> (simp only at h; subst h; rfl)

/-- Witness for C8: `start()` is a no-op from ready; `stop()` from
connecting reaches idle. -/
theorem voice_status_transitions_witness :
    voiceStep { status := .ready, errMsg := none } .start =
      { status := .ready, errMsg := none }
  ∧ (voiceStep { status := .connecting, errMsg := none } .stop).status =
      .idle :=
  ⟨voice_status_transitions.2.2.1 _ (Or.inr rfl),
   voice_status_transitions.2.2.2.2 _ (Or.inl rfl)⟩

/-- C9: the dispatch gate blocks only new dispatches, never direct
appends.  From a reachable gate-clear state, an accepted dispatch sets
the gate; a voice assistant utterance delivered while that dispatch is in
flight is still appended immediately through the deduplicating append
(and leaves the gate set), so when the dispatch then resolves, its user
turn and reply turn are separated by the voice turn. -/
theorem voice_append_during_dispatch (s : ChatState) (sessionId : String)
    (events : List Event) (hrun : s = run sessionId events)
    (t1 t2 : String) (resp : ChatResponse)
    (hgate : s.loadingRef = false) (ht : jsTrim t1 ≠ "") :
    (∀ u v, (step u (.voiceAssistant v)).messages =
        appendMessage u.messages .assistant v)
  ∧ (step (step s (.typedSend t1)) (.voiceAssistant t2)).loadingRef = true
  ∧ (step (step (step s (.typedSend t1)) (.voiceAssistant t2))
        (.dispatchResolve resp)).messages
      = s.messages ++
          [{ role := .user, content := jsTrim t1 },
           { role := .assistant, content := t2 },
           { role := .assistant, content := resp.response,
             sources := resp.sources }] := by
  have hlast : (s.messages.getLast?).map Message.role ≠ some .user := by
    rw [hrun] at hgate ⊢
    exact run_gate_clear_last_not_user sessionId events hgate
  have h1 : step s (.typedSend t1) =
      { s with
        messages := s.messages ++ [{ role := .user, content := jsTrim t1 }]
        loadingRef := true
        apiCalls := s.apiCalls ++ [(jsTrim t1, s.sessionId)] } :=
    sendMessageStart_accepted s t1 hgate ht hlast
  have h2 : appendMessage
      (s.messages ++ [{ role := .user, content := jsTrim t1 }]) .assistant t2
      = (s.messages ++ [{ role := .user, content := jsTrim t1 }]) ++
          [{ role := .assistant, content := t2 }] := by
    apply appendMessage_of_role_ne
    rw [getLast?_append_singleton]
    simp
  refine ⟨fun _ _ => rfl, ?_, ?_⟩
  · rw [h1]
    rfl
  · rw [h1]
    simp [step, sendMessageResolve, h2, List.append_assoc]

/-- Witness for C9: a concrete voice assistant turn lands between a
dispatch's user turn and its reply turn. -/
theorem voice_append_during_dispatch_witness :
    (step (step (step (run "session-1" []) (.typedSend "hello"))
        (.voiceAssistant "un instant"))
        (.dispatchResolve { response := "hi", sources := none })).messages
      = (run "session-1" []).messages ++
          [{ role := .user, content := jsTrim "hello" },
           { role := .assistant, content := "un instant" },
           { role := .assistant, content := "hi", sources := none }] :=
  (voice_append_during_dispatch (run "session-1" []) "session-1" [] rfl
    "hello" "un instant" { response := "hi", sources := none } rfl
    (by decide)).2.2

/-- C10: an accepted dispatch stores the trimmed input as the user turn's
content and passes exactly that same trimmed string (with the session id)
to the text collaborator — the collaborator never receives the raw
untrimmed text. -/
theorem dispatch_uses_trimmed_text (s : ChatState) (sessionId : String)
    (events : List Event) (hrun : s = run sessionId events) (t : String)
    (hgate : s.loadingRef = false) (ht : jsTrim t ≠ "") :
    (step s (.typedSend t)).apiCalls =
        s.apiCalls ++ [(jsTrim t, s.sessionId)]
  ∧ (step s (.typedSend t)).messages =
        s.messages ++ [{ role := .user, content := jsTrim t }] := by
  have hlast : (s.messages.getLast?).map Message.role ≠ some .user := by
    rw [hrun] at hgate ⊢
    exact run_gate_clear_last_not_user sessionId events hgate
  have h1 : step s (.typedSend t) =
      { s with
        messages := s.messages ++ [{ role := .user, content := jsTrim t }]
        loadingRef := true
        apiCalls := s.apiCalls ++ [(jsTrim t, s.sessionId)] } :=
    sendMessageStart_accepted s t hgate ht hlast
  rw [h1]
  exact ⟨rfl, rfl⟩

/-- Witness for C10: a concrete padded input reaches the collaborator and
the transcript in its trimmed form. -/
theorem dispatch_uses_trimmed_text_witness :
    (step (run "session-1" []) (.typedSend "  bonjour  ")).apiCalls =
        (run "session-1" []).apiCalls ++
          [(jsTrim "  bonjour  ", (run "session-1" []).sessionId)]
  ∧ jsTrim "  bonjour  " = "bonjour" :=
  ⟨(dispatch_uses_trimmed_text (run "session-1" []) "session-1" [] rfl
      "  bonjour  " rfl (by decide)).1,
   by decide⟩
